import Mathlib

/-!
Verification of the retrieval-and-answering pipeline of the document Q&A
backend.  The Python sources are shallowly embedded: text is `List Char`,
floats that only ever undergo exact arithmetic and comparisons are `ℚ`,
fallible calls are `Except`/`Option` parameters, and the database session is
explicit state.  Each definition mirrors one function of the source tree.
-/

namespace Backend

/-! ## Text primitives (Python string operations used by the code) -/

/-- Python whitespace set used by `str.strip`. -/
def pyIsSpace (c : Char) : Bool :=
  c = ' ' || c = '\t' || c = '\n' || c = '\r' || c = '\x0b' || c = '\x0c'

/-- Python `str.strip()`: drop whitespace from both ends. -/
def pyStrip (l : List Char) : List Char :=
  ((l.dropWhile pyIsSpace).reverse.dropWhile pyIsSpace).reverse

/-- Does `sub` occur in `text` starting at position `p`? -/
def occursAt (text sub : List Char) (p : Nat) : Bool :=
  decide (sub = (text.drop p).take sub.length)

/-- Python's `sub in s` substring test: `sub` occurs at some position. -/
def strContains (s sub : List Char) : Bool :=
  (List.range (s.length + 1)).any (fun p => occursAt s sub p)

/-- Python `text.rfind(sub, i, j)`: the largest position `p` with
`i ≤ p`, `p + sub.length ≤ j` and `sub` occurring at `p`; `none` when there is
no such position (Python returns `-1`). -/
def rfindIn (text sub : List Char) (i j : Nat) : Option Nat :=
  (List.range j).foldl
    (fun acc p =>
      if i ≤ p && p + sub.length ≤ j && occursAt text sub p then some p else acc)
    none

/-! ## `app/utils/chunking.py`: `chunk_text` -/

/-- The sentence-ending delimiters, in the order the code tries them. -/
def sentenceEndings : List (List Char) :=
  [['.', ' '], ['.', '\n'], ['!', ' '], ['!', '\n'], ['?', ' '], ['?', '\n']]

/-- The `for ending in sentence_endings` loop: try each delimiter kind in
order; the first kind with an occurrence wins, and the cut is placed right
after the last occurrence (`rfind`) of that kind. -/
def findSentenceBreak (text : List Char) (ss e : Nat) : List (List Char) → Option Nat
  | [] => none
  | ending :: rest =>
    match rfindIn text ending ss e with
    | some p => some (p + ending.length)
    | none => findSentenceBreak text ss e rest

/-- The paragraph-break fallback: cut after the last `"\n\n"` in the search
window, or at the raw boundary `e` when there is none. -/
def paraOrRaw (text : List Char) (ss e : Nat) : Nat :=
  match rfindIn text ['\n', '\n'] ss e with
  | some p => p + 2
  | none => e

/-- The boundary-search part of one `chunk_text` iteration: the position at
which the window `[start, start + chunk_size)` is actually cut. -/
def cutEnd (text : List Char) (csize start : Nat) : Nat :=
  let e := start + csize
  if e < text.length then
    let ss := max start (e - 200)
    let bb := (findSentenceBreak text ss e sentenceEndings).getD e
    if bb = e then paraOrRaw text ss e
    else bb
  else e

/-- `start = max(start + 1, end - overlap)`: the next window start. -/
def nextStart (text : List Char) (csize overlap start : Nat) : Nat :=
  max (start + 1) (cutEnd text csize start - overlap)

/-- One produced chunk record. -/
structure TChunk where
  content : List Char
  chunk_index : Nat
  start_char : Nat
  end_char : Nat
  deriving DecidableEq

/-- The `while start < len(text)` loop of `chunk_text`, with explicit fuel;
`none` means the fuel ran out before the loop exited. -/
def chunkLoop (text : List Char) (csize overlap : Nat) :
    Nat → Nat → Nat → Option (List TChunk)
  | 0, _, _ => none
  | fuel + 1, start, idx =>
    if start < text.length then
      if pyStrip ((text.drop start).take (cutEnd text csize start - start)) = [] then
        chunkLoop text csize overlap fuel (nextStart text csize overlap start) idx
      else
        (chunkLoop text csize overlap fuel (nextStart text csize overlap start) (idx + 1)).map
          (fun rest =>
            ⟨pyStrip ((text.drop start).take (cutEnd text csize start - start)),
             idx, start, cutEnd text csize start⟩ :: rest)
    else
      some []

/-- `chunk_text(text, chunk_size, overlap)`.  The guard mirrors
`if not text or len(text.strip()) == 0: return []`; the loop is run with
enough fuel (`text.length + 1` iterations always suffice, as proved below). -/
def chunk_text (text : List Char) (csize overlap : Nat) : List TChunk :=
  if pyStrip text = [] then []
  else (chunkLoop text csize overlap (text.length + 1) 0 0).getD []

/-- The cut position as the spec sentence describes it: the delimiter
occurrence closest to the raw boundary among ALL delimiter kinds. -/
def nearestBreakAllKinds (text : List Char) (ss e : Nat) : Option Nat :=
  (sentenceEndings.filterMap
    (fun k => (rfindIn text k ss e).map (fun p => p + k.length))).max?

/-- The claimed cut rule: cut after the sentence-ending occurrence nearest
the raw boundary among all kinds; only if none exists use a paragraph break,
and only then the raw boundary. -/
def cutEndClaim (text : List Char) (csize start : Nat) : Nat :=
  let e := start + csize
  if e < text.length then
    let ss := max start (e - 200)
    match nearestBreakAllKinds text ss e with
    | some b => b
    | none => paraOrRaw text ss e
  else e

/-- The amended cut rule: try the delimiter kinds in the fixed priority
order `['. ', '.\n', '! ', '!\n', '? ', '?\n']`; the first kind occurring in
the window wins and the cut goes after the LAST occurrence of that kind
(a cut that would coincide with the raw boundary counts as not found);
otherwise a paragraph break, otherwise the raw boundary. -/
def cutEndAmended (text : List Char) (csize start : Nat) : Nat :=
  let e := start + csize
  if e < text.length then
    let ss := max start (e - 200)
    let sb : Option Nat :=
      match sentenceEndings.find? (fun k => (rfindIn text k ss e).isSome) with
      | some k => (rfindIn text k ss e).map (fun p => p + k.length)
      | none => none
    match sb with
    | some b => if b = e then paraOrRaw text ss e else b
    | none => paraOrRaw text ss e
  else e

/-- Adversarial text for the cut-rule claim: within the window `[0, 10)` the
kind `'. '` occurs at 1 while `'! '` occurs at 6, nearer the raw boundary. -/
def cexText : List Char := "a. bbb! cc xxxx".data

/-! ## `app/services/rag_service.py`: `RAGService` -/

/-- Metadata attached to a chunk record; the code only reads
`chunk_index` and `document_id` out of this open map. -/
structure Metadata where
  chunk_index : Option Nat
  document_id : Option String
  deriving DecidableEq

/-- A retrieved match, as returned by `search_similar_chunks`.  The
`distance` field of the underlying dict may be absent (`none`), present but
`None` (`some none`), or a number (`some (some d)`). -/
structure RChunk where
  chunk_id : String
  content : List Char
  distance : Option (Option ℚ)
  metadata : Metadata
  deriving DecidableEq

/-- `chunk.get("distance", 1.0)`. -/
def getDistance (c : RChunk) : Option ℚ := c.distance.getD (some 1)

/-- `similarity = 1.0 - distance if distance is not None else 0.0`. -/
def similarityOf (c : RChunk) : ℚ :=
  match getDistance c with
  | some d => 1 - d
  | none => 0

/-- `if similarity >= min_similarity: ... filtered_chunks.append(chunk)`. -/
def keepChunk (minSim : ℚ) (c : RChunk) : Bool :=
  decide (minSim ≤ similarityOf c)

/-- The filtering loop over the retrieved matches. -/
def filterChunks (minSim : ℚ) (cs : List RChunk) : List RChunk :=
  cs.filter (keepChunk minSim)

/-- `content[:200] + "..." if len(content) > 200 else content`. -/
def truncate200 (s : List Char) : List Char :=
  if 200 < s.length then s.take 200 ++ ['.', '.', '.'] else s

/-- One entry of the `sources` list built by `answer_question`. -/
structure SourceEntry where
  chunk_id : String
  content : List Char
  similarity : ℚ
  metadata : Metadata
  deriving DecidableEq

def mkSource (c : RChunk) : SourceEntry :=
  ⟨c.chunk_id, truncate200 c.content, similarityOf c, c.metadata⟩

/-- `"[Section {chunk_index}]\n{content}\n"` for one chunk; `pos` is the
1-based enumeration position used when the metadata has no index. -/
def sectionOf (pos : Nat) (content : List Char) (cidx : Option Nat) : List Char :=
  ("[Section " ++ toString (cidx.getD pos) ++ "]\n").data ++ content ++ ['\n']

/-- `_build_context`: sections joined by `"\n"`, enumerated from 1. -/
def buildContext (parts : List (List Char × Option Nat)) : List Char :=
  List.intercalate ['\n']
    ((List.enumFrom 1 parts).map (fun ic => sectionOf ic.1 ic.2.1 ic.2.2))

/-- The context parts fed to `_build_context` for a chunk list. -/
def contextParts (cs : List RChunk) : List (List Char × Option Nat) :=
  cs.map (fun c => (c.content, c.metadata.chunk_index))

/-- What the answer field of the returned dict is: either one of the fixed
canned strings, or the output of a model call (recorded with the inputs the
model was invoked on; `fromModel` is `generate_answer(question, context)`,
`fromModelSummary` is `generate_answer(summary_prompt(context), None,
system_prompt)`). -/
inductive RagAnswer
  | canned (msg : String)
  | fromModel (question : List Char) (context : List Char)
  | fromModelSummary (context : List Char) (systemPrompt : String)
  deriving DecidableEq

def notFoundMsg : String :=
  "I couldn't find relevant information in the document to answer this question."

def nothingToSummarizeMsg : String :=
  "I couldn't find any content in the document to summarize. The document may not have been processed yet or there was an error during processing."

def summarySystemPrompt : String :=
  "You are an expert at summarizing documents. Provide clear, comprehensive summaries that capture the main ideas and key details."

structure RagOutput where
  answer : RagAnswer
  sources : List SourceEntry
  deriving DecidableEq

/-- `RAGService.answer_question`, given the list the similarity search
returned.  A `canned` answer means the model client was never invoked. -/
def answer_question (question : List Char) (similar : List RChunk) (minSim : ℚ) :
    RagOutput :=
  if similar = [] then ⟨.canned notFoundMsg, []⟩
  else
    let filtered := filterChunks minSim similar
    if filtered = [] then ⟨.canned notFoundMsg, []⟩
    else
      ⟨.fromModel question (buildContext (contextParts filtered)),
       filtered.map mkSource⟩

/-! ## `RAGService.summarize_document` -/

/-- A chunk dict as held by `all_chunks` in `summarize_document`. -/
structure SChunk where
  chunk_id : String
  content : List Char
  metadata : Metadata
  deriving DecidableEq

/-- A `DocumentChunk` row of the relational store. -/
structure DbChunk where
  id : String
  content : List Char
  chunk_index : Nat
  document_id : String
  deriving DecidableEq

/-- The dict built from a database row in the fallback branch. -/
def dbToSChunk (c : DbChunk) : SChunk :=
  ⟨c.id, c.content, ⟨some c.chunk_index, some c.document_id⟩⟩

/-- Stable insertion into a list ascending by `chunk_index`. -/
def insertByIndex (c : DbChunk) : List DbChunk → List DbChunk
  | [] => [c]
  | d :: ds =>
    if d.chunk_index ≤ c.chunk_index then d :: insertByIndex c ds
    else c :: d :: ds

/-- `ORDER BY chunk_index` ascending (stable sort). -/
def sortByIndex : List DbChunk → List DbChunk
  | [] => []
  | c :: cs => insertByIndex c (sortByIndex cs)

/-- `db.query(DocumentChunk).filter(...).order_by(chunk_index).limit(max_chunks)`. -/
def dbQueryChunks (rows : List DbChunk) (maxChunks : Nat) : List DbChunk :=
  (sortByIndex rows).take maxChunks

/-- The chunk list `summarize_document` ends up using: the vector-index
result if the call succeeded with a non-empty list, else the relational
fallback when a session was passed, else nothing.  `vector` is the outcome
of `get_all_chunks` (`.error` = it raised). -/
def summarizeChunksUsed (vector : Except String (List SChunk))
    (db : Option (List DbChunk)) (maxChunks : Nat) : List SChunk :=
  let fromVec := match vector with
    | .ok l => l
    | .error _ => []
  if fromVec = [] then
    match db with
    | some rows => (dbQueryChunks rows maxChunks).map dbToSChunk
    | none => []
  else fromVec

/-- One entry of the `sources` list built by `summarize_document`. -/
structure SumSource where
  chunk_id : String
  content : List Char
  metadata : Metadata
  deriving DecidableEq

def mkSumSource (c : SChunk) : SumSource :=
  ⟨c.chunk_id, truncate200 c.content, c.metadata⟩

structure SumOutput where
  answer : RagAnswer
  sources : List SumSource
  deriving DecidableEq

def sumContextParts (cs : List SChunk) : List (List Char × Option Nat) :=
  cs.map (fun c => (c.content, c.metadata.chunk_index))

/-- `RAGService.summarize_document` (the code's `max_chunks` default is 50). -/
def summarize_document (vector : Except String (List SChunk))
    (db : Option (List DbChunk)) (maxChunks : Nat) : SumOutput :=
  let used := summarizeChunksUsed vector db maxChunks
  if used = [] then ⟨.canned nothingToSummarizeMsg, []⟩
  else
    ⟨.fromModelSummary (buildContext (sumContextParts used)) summarySystemPrompt,
     (used.take 10).map mkSumSource⟩

/-! ## `app/services/search_service.py`: `SearchService.search` -/

/-- One search-result dict as returned to callers. -/
structure SResult where
  title : String
  url : String
  snippet : String
  deriving DecidableEq

/-- A raw result from the engine, with possibly missing fields. -/
structure RawResult where
  title : Option String
  href : Option String
  body : Option String
  deriving DecidableEq

/-- `{"title": result.get("title", ""), "url": ..., "snippet": ...}`. -/
def convertResult (r : RawResult) : SResult :=
  ⟨r.title.getD "", r.href.getD "", r.body.getD ""⟩

/-- What one `ddgs.text` attempt does: return a (possibly empty) result
list, raise a `DuckDuckGoSearchException` with a message, or raise some
other exception. -/
inductive AttemptOutcome
  | ok (rs : List RawResult)
  | ddgErr (msg : List Char)
  | otherErr
  deriving DecidableEq

/-- `"ratelimit" in error_msg or "rate limit" in error_msg` on the
lowercased exception text. -/
def rateLimitMsg (msg : List Char) : Bool :=
  let m := msg.map Char.toLower
  strContains m "ratelimit".data || strContains m "rate limit".data

/-- An attempt that does not make the loop return results: an empty result
list, or either kind of exception. -/
def attemptFails (o : AttemptOutcome) : Bool :=
  match o with
  | .ok rs => rs.isEmpty
  | .ddgErr _ => true
  | .otherErr => true

/-- The `for attempt in range(retries)` loop of `SearchService.search`,
iterating over the remaining attempt indices; `out i` is the outcome of the
i-th `ddgs.text` call.  Returns the result list together with the list of
`time.sleep` durations performed, in order; falling off the loop returns
`([], ...)` — the function is total, no path raises. -/
def searchIter (out : Nat → AttemptOutcome) (retries : Nat) :
    List Nat → List SResult × List Nat
  | [] => ([], [])
  | attempt :: rest =>
    match out attempt with
    | .ok rs =>
      let results := rs.map convertResult
      if results = [] then searchIter out retries rest
      else (results, [])
    | .ddgErr msg =>
      if rateLimitMsg msg then
        if attempt < retries - 1 then
          let r := searchIter out retries rest
          (r.1, 2 * (attempt + 1) :: r.2)
        else ([], [])
      else
        if attempt < retries - 1 then
          let r := searchIter out retries rest
          (r.1, 1 :: r.2)
        else ([], [])
    | .otherErr =>
      if attempt < retries - 1 then
        let r := searchIter out retries rest
        (r.1, 1 :: r.2)
      else ([], [])

/-- `SearchService.search`: run the loop over `range(retries)`. -/
def search (out : Nat → AttemptOutcome) (retries : Nat) : List SResult × List Nat :=
  searchIter out retries (List.range retries)

/-! ## `app/services/simple_fallback.py` and the offline branch of
`ask_question` (`app/api/routes/chat.py`) -/

/-- `question.lower().strip()`. -/
def pyLowerStrip (q : List Char) : List Char :=
  pyStrip (q.map Char.toLower)

/-- GREETINGS then COMMON_RESPONSES, in source (insertion) order. -/
def fallbackTable : List (List Char × String) :=
  [("hi".data, "Hello! How can I help you today?"),
   ("hello".data, "Hi there! What would you like to know?"),
   ("hey".data, "Hey! How can I assist you?"),
   ("good morning".data, "Good morning! How can I help you?"),
   ("good afternoon".data, "Good afternoon! What can I do for you?"),
   ("good evening".data, "Good evening! How may I assist you?"),
   ("how are you".data, "I'm doing well, thank you for asking! How can I help you today?"),
   ("what can you do".data, "I can help you answer questions about uploaded documents or general questions. However, I need Ollama (a local AI service) to be running for full functionality."),
   ("who are you".data, "I'm an AI assistant designed to help answer questions about documents and provide general information. I use local AI models through Ollama.")]

/-- `SimpleFallback.get_fallback_response`: first table key that is a
substring of the lowercased, stripped question. -/
def get_fallback_response (q : List Char) : Option String :=
  ((fallbackTable.find? (fun kv => strContains (pyLowerStrip q) kv.1)).map
    (fun kv => kv.2))

/-- `SimpleFallback.get_error_response`. -/
def errorResponse : String :=
  "I apologize, but I'm currently unable to process your question because Ollama (the local AI service) is not running or not accessible.\n\nTo fix this:\n1. Install Ollama from https://ollama.ai/download\n2. Pull a model: 'ollama pull llama3:8b'\n3. Make sure Ollama is running\n4. Refresh this page\n\nOnce Ollama is running, I'll be able to answer your questions!"

/-- Result of the general-question branch when the model client is
unavailable (`chat.py` lines 266-274); `searchAttempted` records whether the
branch made any call into the search service — the offline branch contains
none. -/
structure GeneralOutcome where
  answer : String
  sources : List SResult
  searchAttempted : Bool
  deriving DecidableEq

/-- The `else` branch taken when `check_connection()` is false: consult the
rule-based fallback, else the fixed instructional error message.  The branch
never consults the search service and never raises. -/
def ask_general_offline (q : List Char) : GeneralOutcome :=
  match get_fallback_response q with
  | some r => ⟨r, [], false⟩
  | none => ⟨errorResponse, [], false⟩

/-! ## `app/api/routes/documents.py`: `upload_document` processing -/

/-- The visible state of one document's database session: the in-memory
status of the ORM object, the last committed status, chunk rows added but
not yet committed, and chunk rows made durable by a commit. -/
structure DbState where
  status : String
  committedStatus : String
  pendingRows : Nat
  rowsPersisted : Nat
  deriving DecidableEq

/-- `db.commit()`: persists the current object state and all pending rows. -/
def dbCommit (d : DbState) : DbState :=
  ⟨d.status, d.status, 0, d.rowsPersisted + d.pendingRows⟩

/-- The state right after the document record is created and committed with
`status="processing"`. -/
def initialDoc : DbState :=
  dbCommit ⟨"processing", "", 0, 0⟩

/-- `document.status = "failed"; db.commit()` — the except-branch of the
processing block. -/
def markFailed (d : DbState) : DbState :=
  dbCommit ⟨"failed", d.committedStatus, d.pendingRows, d.rowsPersisted⟩

/-- `db.add(db_chunk)` for `k` chunk rows. -/
def addRows (d : DbState) (k : Nat) : DbState :=
  ⟨d.status, d.committedStatus, d.pendingRows + k, d.rowsPersisted⟩

/-- Where the processing block can raise: text extraction, chunking, a chunk
row write (after `k` rows were already added), or the embedding/vector-index
write. -/
inductive StepFail
  | extractFail
  | chunkFail
  | writeFail (rowsAdded : Nat)
  | embedFail
  deriving DecidableEq

/-- The `try`-block of `upload_document` after the document record exists:
extraction, chunking, chunk-row writes, embedding + vector-index write, then
`status="processed"; db.commit()`; any failure lands in the except-branch
`status="failed"; db.commit()`.  `nChunks` is what `chunk_text` produced. -/
def processDocument (d0 : DbState) (nChunks : Nat) (failure : Option StepFail) :
    DbState :=
  if failure = some .extractFail then markFailed d0
  else if failure = some .chunkFail then markFailed d0
  else
    match failure with
    | some (.writeFail k) => markFailed (addRows d0 (min k nChunks))
    | _ =>
      let d1 := addRows d0 nChunks
      if failure = some .embedFail then markFailed d1
      else dbCommit ⟨"processed", d1.committedStatus, d1.pendingRows, d1.rowsPersisted⟩

/-! ## Concrete inputs used to instantiate the claims -/

/-- Retrieved match with distance 0.1. -/
def demoA : RChunk := ⟨"a", "first".data, some (some (1/10)), ⟨some 0, none⟩⟩

/-- Retrieved match with distance 0.5. -/
def demoB : RChunk := ⟨"b", "second".data, some (some (5/10)), ⟨some 1, none⟩⟩

/-- Retrieved match with distance 0.9. -/
def demoC : RChunk := ⟨"c", "third".data, some (some (9/10)), ⟨some 2, none⟩⟩

/-- Retrieved match with a missing distance field. -/
def demoNoDist : RChunk := ⟨"d", "fourth".data, none, ⟨some 3, none⟩⟩

/-- Retrieved match whose distance field holds `None`. -/
def demoNoneDist : RChunk := ⟨"e", "fifth".data, some none, ⟨some 4, none⟩⟩

/-- Eleven one-character chunks, more than the 10 shown as sources. -/
def demo11 : List SChunk :=
  (List.range 11).map (fun i => ⟨"c", ['x'], ⟨some i, none⟩⟩)

/-! ## Shared lemmas -/

theorem mem_filterChunks {minSim : ℚ} {cs : List RChunk} {c : RChunk} :
    c ∈ filterChunks minSim cs ↔ c ∈ cs ∧ minSim ≤ similarityOf c := by
  simp [filterChunks, keepChunk, List.mem_filter]

theorem answer_question_of_filter_nil {q : List Char} {cs : List RChunk} {ms : ℚ}
    (h : filterChunks ms cs = []) :
    answer_question q cs ms = ⟨.canned notFoundMsg, []⟩ := by
  unfold answer_question
  by_cases hcs : cs = [] <;> simp [hcs, h]

theorem answer_question_of_filter_ne {q : List Char} {cs : List RChunk} {ms : ℚ}
    (h : filterChunks ms cs ≠ []) :
    answer_question q cs ms =
      ⟨.fromModel q (buildContext (contextParts (filterChunks ms cs))),
       (filterChunks ms cs).map mkSource⟩ := by
  have hcs : cs ≠ [] := by
    intro h0
    exact h (by rw [h0]; rfl)
  unfold answer_question
  simp [hcs, h]

theorem similarityOf_demoA : similarityOf demoA = 9/10 := by
  simp [similarityOf, getDistance, demoA]
  norm_num

theorem keep_demoA : keepChunk (6/10) demoA = true := by
  simp [keepChunk, similarityOf_demoA]
  norm_num

theorem keep_demoB : keepChunk (6/10) demoB = false := by
  have hB : similarityOf demoB = 5/10 := by
    simp [similarityOf, getDistance, demoB]
    norm_num
  simp [keepChunk, hB]
  norm_num

theorem keep_demoC : keepChunk (6/10) demoC = false := by
  have hC : similarityOf demoC = 1/10 := by
    simp [similarityOf, getDistance, demoC]
    norm_num
  simp [keepChunk, hC]
  norm_num

theorem filter_demo : filterChunks (6/10) [demoA, demoB, demoC] = [demoA] := by
  simp [filterChunks, List.filter, keep_demoA, keep_demoB, keep_demoC]

theorem filter_demoC_nil : filterChunks (6/10) [demoC] = [] := by
  simp [filterChunks, List.filter, keep_demoC]

/-! ## Claim theorems -/

/-- Claim C1: in `answer_question` every retrieved match is assigned
`similarity = 1 - distance` and is kept iff `similarity ≥ min_similarity`;
for distances `[0.1, 0.5, 0.9]` and `min_similarity = 0.6` exactly the
distance-0.1 match (similarity 0.9) survives the filter. -/
theorem answer_filter_threshold :
    (∀ (c : RChunk) (d : ℚ), c.distance = some (some d) → similarityOf c = 1 - d)
  ∧ (∀ (minSim : ℚ) (cs : List RChunk) (c : RChunk),
      c ∈ filterChunks minSim cs ↔ c ∈ cs ∧ minSim ≤ similarityOf c)
  ∧ filterChunks (6/10) [demoA, demoB, demoC] = [demoA]
  ∧ similarityOf demoA = 9/10
  ∧ (answer_question "q".data [demoA, demoB, demoC] (6/10)).sources.map
      (fun s => s.similarity) = [9/10] := by
  refine ⟨?_, fun _ _ _ => mem_filterChunks, filter_demo, similarityOf_demoA, ?_⟩
  · intro c d h
    simp [similarityOf, getDistance, h]
  · rw [answer_question_of_filter_ne (by rw [filter_demo]; exact List.cons_ne_nil _ _),
        filter_demo]
    simp [mkSource, similarityOf_demoA]

/-- Witness for C1 at the concrete distance-0.1 match. -/
theorem answer_filter_threshold_witness :
    demoA.distance = some (some (1/10)) ∧ similarityOf demoA = 1 - 1/10 :=
  ⟨rfl, answer_filter_threshold.1 demoA (1/10) rfl⟩

/-- Claim C2: when the search returns zero matches, or no match passes the
similarity filter, `answer_question` returns exactly the fixed
"couldn't find relevant information" string with empty sources, and the
model client is never invoked (the answer is a canned string, not a model
output). -/
theorem answer_question_miss :
    (∀ (q : List Char) (ms : ℚ),
        answer_question q [] ms = ⟨.canned notFoundMsg, []⟩)
  ∧ (∀ (q : List Char) (cs : List RChunk) (ms : ℚ), filterChunks ms cs = [] →
        answer_question q cs ms = ⟨.canned notFoundMsg, []⟩)
  ∧ (∀ (q : List Char) (cs : List RChunk) (ms : ℚ), filterChunks ms cs = [] →
        ∀ (qq ctx : List Char),
          (answer_question q cs ms).answer ≠ RagAnswer.fromModel qq ctx) := by
  refine ⟨fun q ms => answer_question_of_filter_nil rfl,
          fun q cs ms h => answer_question_of_filter_nil h, ?_⟩
  intro q cs ms h qq ctx
  rw [answer_question_of_filter_nil h]
  intro hcontra
  exact RagAnswer.noConfusion hcontra

/-- Witness for C2: a match with distance 0.9 does not pass a 0.6
threshold, so the canned answer is returned with no sources. -/
theorem answer_question_miss_witness :
    answer_question "q".data [demoC] (6/10) = ⟨.canned notFoundMsg, []⟩ :=
  answer_question_miss.2.1 "q".data [demoC] (6/10)
    (by simp [filterChunks, List.filter, keep_demoC])

/-- Claim C10: a retrieved match whose distance field is absent or `None`
gets similarity 0.0, so it is kept under the default threshold 0.0 but
discarded under any strictly positive threshold. -/
theorem missing_distance_defaults :
    (∀ c : RChunk, c.distance = none ∨ c.distance = some none →
        similarityOf c = 0)
  ∧ (∀ c : RChunk, c.distance = none ∨ c.distance = some none →
        keepChunk 0 c = true ∧ ∀ ms : ℚ, 0 < ms → keepChunk ms c = false) := by
  have hsim : ∀ c : RChunk, c.distance = none ∨ c.distance = some none →
      similarityOf c = 0 := by
    rintro c (h | h) <;> simp [similarityOf, getDistance, h]
  refine ⟨hsim, fun c h => ⟨?_, ?_⟩⟩
  · simp [keepChunk, hsim c h]
  · intro ms hms
    simp [keepChunk, hsim c h]
    linarith

/-- Witness for C10 at the two concrete matches. -/
theorem missing_distance_defaults_witness :
    similarityOf demoNoDist = 0 ∧ similarityOf demoNoneDist = 0
  ∧ keepChunk 0 demoNoDist = true ∧ keepChunk (1/2) demoNoDist = false :=
  ⟨missing_distance_defaults.1 demoNoDist (Or.inl rfl),
   missing_distance_defaults.1 demoNoneDist (Or.inr rfl),
   (missing_distance_defaults.2 demoNoDist (Or.inl rfl)).1,
   (missing_distance_defaults.2 demoNoDist (Or.inl rfl)).2 (1/2) (by norm_num)⟩

/-- Claim C7 fails for `summarize_document`: with 11 chunks the context is
built from all 11, but the sources list keeps only the first 10 of them. -/
theorem sources_mirror_context_cex :
    summarizeChunksUsed (Except.ok demo11) none 50 = demo11
  ∧ demo11.length = 11
  ∧ (summarize_document (Except.ok demo11) none 50).sources.length = 10 := by
  refine ⟨by decide, by decide, ?_⟩
  decide

/-- Claim C7 amended: `answer_question` sources mirror exactly the filtered
chunks used for context, in order, content truncated to the first 200
characters (with an appended ellipsis) when longer; `summarize_document`
sources mirror only the FIRST TEN of the chunks used for context, in order,
with the same truncation. -/
theorem sources_mirror_context_amended :
    (∀ (q : List Char) (cs : List RChunk) (ms : ℚ), filterChunks ms cs ≠ [] →
        (answer_question q cs ms).sources = (filterChunks ms cs).map mkSource)
  ∧ (∀ (v : Except String (List SChunk)) (db : Option (List DbChunk)) (mc : Nat),
        summarizeChunksUsed v db mc ≠ [] →
        (summarize_document v db mc).sources =
          ((summarizeChunksUsed v db mc).take 10).map mkSumSource)
  ∧ (∀ c : RChunk, 200 < c.content.length →
        (mkSource c).content = c.content.take 200 ++ ['.', '.', '.'])
  ∧ (∀ c : RChunk, c.content.length ≤ 200 → (mkSource c).content = c.content)
  ∧ (∀ c : SChunk, 200 < c.content.length →
        (mkSumSource c).content = c.content.take 200 ++ ['.', '.', '.']) := by
  refine ⟨?_, ?_, ?_, ?_, ?_⟩
  · intro q cs ms h
    rw [answer_question_of_filter_ne h]
  · intro v db mc h
    unfold summarize_document
    simp [h]
  · intro c h
    simp [mkSource, truncate200, h]
  · intro c h
    simp [mkSource, truncate200]
    omega
  · intro c h
    simp [mkSumSource, truncate200, h]

/-- Witness for the amended C7 at concrete inputs. -/
theorem sources_mirror_context_amended_witness :
    (answer_question "q".data [demoA, demoB, demoC] (6/10)).sources =
      (filterChunks (6/10) [demoA, demoB, demoC]).map mkSource
  ∧ (summarize_document (Except.ok demo11) none 50).sources =
      ((summarizeChunksUsed (Except.ok demo11) none 50).take 10).map mkSumSource :=
  ⟨sources_mirror_context_amended.1 "q".data [demoA, demoB, demoC] (6/10)
     (by rw [filter_demo]; exact List.cons_ne_nil _ _),
   sources_mirror_context_amended.2.1 (Except.ok demo11) none 50 (by decide)⟩

/-- Claim C9: with the model client unavailable, the general-question
handler consults the fixed fallback table on the lowercased trimmed
question (first matching key wins), returns that key's canned response —
for "hello" the fixed greeting — and otherwise the fixed instructional
error message; sources are empty and no web search is attempted. -/
theorem offline_general_fallback :
    (∀ q : List Char, (ask_general_offline q).sources = []
        ∧ (ask_general_offline q).searchAttempted = false)
  ∧ (∀ q : List Char, get_fallback_response q = none →
        (ask_general_offline q).answer = errorResponse)
  ∧ (∀ (q : List Char) (r : String), get_fallback_response q = some r →
        (ask_general_offline q).answer = r)
  ∧ (∀ (q : List Char) (r : String), get_fallback_response q = some r →
        ∃ kv ∈ fallbackTable, strContains (pyLowerStrip q) kv.1 = true ∧ r = kv.2)
  ∧ ask_general_offline "hello".data =
      ⟨"Hi there! What would you like to know?", [], false⟩ := by
  refine ⟨?_, ?_, ?_, ?_, by decide⟩
  · intro q
    unfold ask_general_offline
    cases h : get_fallback_response q <;> simp
  · intro q h
    unfold ask_general_offline
    rw [h]
  · intro q r h
    unfold ask_general_offline
    rw [h]
  · intro q r h
    unfold get_fallback_response at h
    cases hf : fallbackTable.find? (fun kv => strContains (pyLowerStrip q) kv.1) with
    | none => rw [hf] at h; exact absurd h (by simp)
    | some kv =>
      rw [hf] at h
      refine ⟨kv, List.mem_of_find?_eq_some hf, ?_, ?_⟩
      · simpa using List.find?_some hf
      · simpa using h.symm

/-- Witness for C9 at concrete questions: one that matches no rule and the
greeting that matches the "hello" rule. -/
theorem offline_general_fallback_witness :
    (ask_general_offline "why is the sky blue".data).answer = errorResponse
  ∧ (ask_general_offline "hello".data).answer =
      "Hi there! What would you like to know?" :=
  ⟨offline_general_fallback.2.1 "why is the sky blue".data (by decide),
   offline_general_fallback.2.2.1 "hello".data _ (by decide)⟩

/-- Claim C8: any failure of the processing block after the document record
exists commits the terminal status "failed" — never "processed" — and a
failure at the embedding/index step leaves the already-written chunk rows
persisted rather than rolled back; only the fully successful run commits
"processed". -/
theorem upload_failure_terminal :
    (∀ (n : Nat) (f : StepFail),
        (processDocument initialDoc n (some f)).committedStatus = "failed"
      ∧ (processDocument initialDoc n (some f)).committedStatus ≠ "processed"
      ∧ (processDocument initialDoc n (some f)).status ≠ "processed")
  ∧ (∀ n : Nat, (processDocument initialDoc n (some .embedFail)).rowsPersisted = n)
  ∧ (∀ n : Nat, (processDocument initialDoc n none).committedStatus = "processed"
      ∧ (processDocument initialDoc n none).rowsPersisted = n) := by
  refine ⟨?_, ?_, ?_⟩
  · intro n f
    cases f <;>
      simp [processDocument, markFailed, dbCommit, addRows, initialDoc]
  · intro n
    simp [processDocument, markFailed, dbCommit, addRows, initialDoc]
  · intro n
    simp [processDocument, dbCommit, addRows, initialDoc]

/-- Witness for C8 at a concrete failing run with five chunks. -/
theorem upload_failure_terminal_witness :
    (processDocument initialDoc 5 (some .embedFail)).committedStatus = "failed"
  ∧ (processDocument initialDoc 5 (some .embedFail)).rowsPersisted = 5 :=
  ⟨(upload_failure_terminal.1 5 .embedFail).1, upload_failure_terminal.2.1 5⟩

theorem searchIter_fst_nil (out : Nat → AttemptOutcome) (retries : Nat) :
    ∀ l : List Nat, (∀ i ∈ l, attemptFails (out i) = true) →
      (searchIter out retries l).1 = [] := by
  intro l
  induction l with
  | nil => intro _; rfl
  | cons a rest ih =>
    intro h
    have ha : attemptFails (out a) = true := h a (List.mem_cons_self a rest)
    have hrest : ∀ i ∈ rest, attemptFails (out i) = true :=
      fun i hi => h i (List.mem_cons_of_mem a hi)
    rw [searchIter]
    cases hout : out a with
    | ok rs =>
      rw [hout] at ha
      have hrs : rs = [] := by simpa [attemptFails] using ha
      simp [hrs, ih hrest]
    | ddgErr msg =>
      by_cases hrl : rateLimitMsg msg <;> by_cases hlt : a < retries - 1 <;>
        simp [hrl, hlt, ih hrest]
    | otherErr =>
      by_cases hlt : a < retries - 1 <;> simp [hlt, ih hrest]

/-- Claim C5: `SearchService.search` never raises — when every attempt
fails it returns the empty list; a rate-limit-classified error before the
n-th retry sleeps `2 × n` seconds, any other error sleeps a flat 1 second. -/
theorem search_retry_policy :
    (∀ (out : Nat → AttemptOutcome) (retries : Nat),
        (∀ i, i < retries → attemptFails (out i) = true) →
        (search out retries).1 = [])
  ∧ (∀ (out : Nat → AttemptOutcome) (retries attempt : Nat) (rest : List Nat)
        (msg : List Char), out attempt = .ddgErr msg → rateLimitMsg msg = true →
        attempt < retries - 1 →
        searchIter out retries (attempt :: rest) =
          ((searchIter out retries rest).1,
            2 * (attempt + 1) :: (searchIter out retries rest).2))
  ∧ (∀ (out : Nat → AttemptOutcome) (retries attempt : Nat) (rest : List Nat)
        (msg : List Char), out attempt = .ddgErr msg → rateLimitMsg msg = false →
        attempt < retries - 1 →
        searchIter out retries (attempt :: rest) =
          ((searchIter out retries rest).1, 1 :: (searchIter out retries rest).2))
  ∧ (∀ (out : Nat → AttemptOutcome) (retries attempt : Nat) (rest : List Nat),
        out attempt = .otherErr → attempt < retries - 1 →
        searchIter out retries (attempt :: rest) =
          ((searchIter out retries rest).1, 1 :: (searchIter out retries rest).2)) := by
  refine ⟨?_, ?_, ?_, ?_⟩
  · intro out retries h
    exact searchIter_fst_nil out retries _ (fun i hi => h i (List.mem_range.mp hi))
  · intro out retries attempt rest msg hout hrl hlt
    rw [searchIter, hout]
    simp [hrl, hlt]
  · intro out retries attempt rest msg hout hrl hlt
    rw [searchIter, hout]
    simp [hrl, hlt]
  · intro out retries attempt rest hout hlt
    rw [searchIter, hout]
    simp [hlt]

/-- Witness for C5: three rate-limited attempts return nothing, and the
first of them sleeps `2 × 1` seconds before the first retry. -/
theorem search_retry_policy_witness :
    (search (fun _ => AttemptOutcome.otherErr) 3).1 = []
  ∧ searchIter (fun _ => AttemptOutcome.ddgErr "Ratelimit hit".data) 3 [0, 1, 2] =
      ((searchIter (fun _ => AttemptOutcome.ddgErr "Ratelimit hit".data) 3 [1, 2]).1,
        2 * (0 + 1) ::
          (searchIter (fun _ => AttemptOutcome.ddgErr "Ratelimit hit".data) 3 [1, 2]).2) :=
  ⟨search_retry_policy.1 _ 3 (fun i _ => by decide),
   search_retry_policy.2.1 _ 3 0 [1, 2] "Ratelimit hit".data rfl (by decide) (by decide)⟩

theorem mem_insertByIndex {x c : DbChunk} : ∀ {l : List DbChunk},
    x ∈ insertByIndex c l ↔ x = c ∨ x ∈ l := by
  intro l
  induction l with
  | nil => simp [insertByIndex]
  | cons d ds ih =>
    by_cases h : d.chunk_index ≤ c.chunk_index
    · simp [insertByIndex, h, ih]
      tauto
    · simp [insertByIndex, h]

theorem pairwise_insertByIndex {c : DbChunk} {l : List DbChunk}
    (h : l.Pairwise (fun a b => a.chunk_index ≤ b.chunk_index)) :
    (insertByIndex c l).Pairwise (fun a b => a.chunk_index ≤ b.chunk_index) := by
  induction l with
  | nil => simp [insertByIndex]
  | cons d ds ih =>
    rcases List.pairwise_cons.mp h with ⟨hd, hds⟩
    by_cases hle : d.chunk_index ≤ c.chunk_index
    · rw [insertByIndex, if_pos hle]
      refine List.pairwise_cons.mpr ⟨?_, ih hds⟩
      intro y hy
      rcases mem_insertByIndex.mp hy with rfl | hy'
      · exact hle
      · exact hd y hy'
    · rw [insertByIndex, if_neg hle]
      refine List.pairwise_cons.mpr ⟨?_, h⟩
      intro y hy
      rcases List.mem_cons.mp hy with rfl | hy'
      · omega
      · exact le_trans (by omega) (hd y hy')

theorem pairwise_sortByIndex : ∀ l : List DbChunk,
    (sortByIndex l).Pairwise (fun a b => a.chunk_index ≤ b.chunk_index) := by
  intro l
  induction l with
  | nil => simp [sortByIndex]
  | cons c cs ih => exact pairwise_insertByIndex ih

/-- Claim C6: when the vector-index fetch raises or yields nothing,
`summarize_document` falls back to the relational store with the chunks
sorted ascending by `chunk_index` and bounded by `max_chunks`; if that too
is empty the fixed "nothing to summarize" answer comes back with no model
call, otherwise the model is called with the full-document context (chunks
in order) and the summarization system prompt. -/
theorem summarize_db_fallback :
    (∀ (e : String) (db : Option (List DbChunk)) (mc : Nat),
        summarize_document (Except.error e) db mc =
          summarize_document (Except.ok []) db mc)
  ∧ (∀ (rows : List DbChunk) (mc : Nat),
        summarizeChunksUsed (Except.ok []) (some rows) mc =
          (dbQueryChunks rows mc).map dbToSChunk)
  ∧ (∀ (rows : List DbChunk) (mc : Nat),
        (dbQueryChunks rows mc).Pairwise (fun a b => a.chunk_index ≤ b.chunk_index)
      ∧ (dbQueryChunks rows mc).length ≤ mc)
  ∧ (∀ (v : Except String (List SChunk)) (db : Option (List DbChunk)) (mc : Nat),
        summarizeChunksUsed v db mc = [] →
        summarize_document v db mc = ⟨.canned nothingToSummarizeMsg, []⟩)
  ∧ (∀ (v : Except String (List SChunk)) (db : Option (List DbChunk)) (mc : Nat),
        summarizeChunksUsed v db mc ≠ [] →
        (summarize_document v db mc).answer =
          .fromModelSummary
            (buildContext (sumContextParts (summarizeChunksUsed v db mc)))
            summarySystemPrompt) := by
  refine ⟨fun e db mc => rfl, fun rows mc => rfl, ?_, ?_, ?_⟩
  · intro rows mc
    constructor
    · exact (pairwise_sortByIndex rows).sublist (List.take_sublist mc _)
    · exact List.length_take_le mc _
  · intro v db mc h
    unfold summarize_document
    simp [h]
  · intro v db mc h
    unfold summarize_document
    simp [h]

/-- Witness for C6: an empty store yields the canned answer; a raising
vector fetch with two out-of-order rows yields index-ordered fallback
chunks. -/
theorem summarize_db_fallback_witness :
    summarize_document (Except.ok []) none 50 = ⟨.canned nothingToSummarizeMsg, []⟩
  ∧ (summarize_document (Except.ok demo11) none 50).answer =
      .fromModelSummary
        (buildContext (sumContextParts (summarizeChunksUsed (Except.ok demo11) none 50)))
        summarySystemPrompt :=
  ⟨summarize_db_fallback.2.2.2.1 (Except.ok []) none 50 (by decide),
   summarize_db_fallback.2.2.2.2 (Except.ok demo11) none 50 (by decide)⟩

theorem lt_nextStart (text : List Char) (csize overlap start : Nat) :
    start < nextStart text csize overlap start :=
  lt_of_lt_of_le (Nat.lt_succ_self start) (le_max_left _ _)

theorem chunkLoop_isSome (text : List Char) (csize overlap : Nat) :
    ∀ (fuel start idx : Nat), text.length - start < fuel →
      (chunkLoop text csize overlap fuel start idx).isSome = true := by
  intro fuel
  induction fuel with
  | zero => intro start idx h; exact absurd h (by omega)
  | succ n ih =>
    intro start idx h
    rw [chunkLoop]
    by_cases hs : start < text.length
    · have hns := lt_nextStart text csize overlap start
      have h2 : text.length - nextStart text csize overlap start < n := by omega
      rw [if_pos hs]
      by_cases hc :
          pyStrip ((text.drop start).take (cutEnd text csize start - start)) = []
      · rw [if_pos hc]
        exact ih _ idx h2
      · rw [if_neg hc]
        have := ih (nextStart text csize overlap start) (idx + 1) h2
        cases ho : chunkLoop text csize overlap n
            (nextStart text csize overlap start) (idx + 1) with
        | none => rw [ho] at this; exact absurd this (by simp)
        | some rest => rfl
    · rw [if_neg hs]
      rfl

/-- Claim C3: `chunk_text` terminates for every input: the advance rule
`start = max(start + 1, end - overlap)` strictly increases the window start
on every iteration, so the loop completes within `text.length + 1` steps
(the fuelled loop never runs out of fuel), for any `chunk_size ≥ 1` and
`overlap < chunk_size` and any text, boundary-free ones included. -/
theorem chunk_text_terminates :
    (∀ (text : List Char) (csize overlap start : Nat),
        start < nextStart text csize overlap start)
  ∧ (∀ (text : List Char) (csize overlap : Nat), 1 ≤ csize → overlap < csize →
        ∀ (fuel start idx : Nat), text.length - start < fuel →
          (chunkLoop text csize overlap fuel start idx).isSome = true)
  ∧ (∀ (text : List Char) (csize overlap : Nat), 1 ≤ csize → overlap < csize →
        (chunkLoop text csize overlap (text.length + 1) 0 0).isSome = true) :=
  ⟨lt_nextStart,
   fun text csize overlap _ _ => chunkLoop_isSome text csize overlap,
   fun text csize overlap _ _ =>
     chunkLoop_isSome text csize overlap (text.length + 1) 0 0 (by omega)⟩

/-- Witness for C3 on an adversarial boundary-free text. -/
theorem chunk_text_terminates_witness :
    (0 : Nat) < nextStart "xxxxxxxx".data 3 1 0
  ∧ (chunkLoop "xxxxxxxx".data 3 1 9 0 0).isSome = true :=
  ⟨chunk_text_terminates.1 "xxxxxxxx".data 3 1 0,
   chunk_text_terminates.2.2 "xxxxxxxx".data 3 1 (by decide) (by decide)⟩

/-- Claim C4 fails: in `cexText` the window `[0, 10)` holds a `'. '`
occurrence at position 1 and a `'! '` occurrence at position 6 — nearer
the raw boundary — yet the code cuts at 3, right after the `'. '`, because
the delimiter kinds are tried in a fixed priority order; the claimed
nearest-occurrence rule would cut at 8. -/
theorem chunk_cut_nearest_cex :
    cutEnd cexText 10 0 = 3
  ∧ cutEndClaim cexText 10 0 = 8
  ∧ (chunk_text cexText 10 0).map (fun c => c.end_char) = [3, 8, 18]
  ∧ (3 : Nat) ≠ 8 := by
  refine ⟨by decide, by decide, by decide, by decide⟩

theorem findSentenceBreak_eq (text : List Char) (ss e : Nat) :
    ∀ kinds : List (List Char),
      findSentenceBreak text ss e kinds =
        match kinds.find? (fun k => (rfindIn text k ss e).isSome) with
        | some k => (rfindIn text k ss e).map (fun p => p + k.length)
        | none => none := by
  intro kinds
  induction kinds with
  | nil => rfl
  | cons k rest ih =>
    rw [findSentenceBreak]
    cases hr : rfindIn text k ss e with
    | some p =>
      rw [List.find?_cons_of_pos _ (by simp [hr])]
      simp [hr]
    | none =>
      rw [List.find?_cons_of_neg _ (by simp [hr])]
      exact ih

/-- Claim C4 amended: the cut is placed immediately after the LAST
occurrence of the FIRST delimiter kind — in the fixed order
`'. ', '.\n', '! ', '!\n', '? ', '?\n'` — that occurs in the last-200
character search window (an occurrence ending exactly at the raw boundary
counting as not found); only if no kind occurs is the paragraph break
used, and only then the raw boundary. -/
theorem chunk_cut_priority_amended :
    ∀ (text : List Char) (csize start : Nat),
      cutEnd text csize start = cutEndAmended text csize start := by
  intro text csize start
  by_cases he : start + csize < text.length
  · simp only [cutEnd, cutEndAmended, findSentenceBreak_eq, if_pos he]
    cases hf : sentenceEndings.find?
        (fun k => (rfindIn text k (max start (start + csize - 200))
          (start + csize)).isSome) with
    | none => simp [hf]
    | some k =>
      cases hr : rfindIn text k (max start (start + csize - 200)) (start + csize) with
      | none =>
        have := List.find?_some hf
        rw [hr] at this
        exact absurd this (by simp)
      | some p => simp [hf, hr]
  · simp only [cutEnd, cutEndAmended, if_neg he]

/-- Witness for the amended C4 at the adversarial text. -/
theorem chunk_cut_priority_amended_witness :
    cutEnd cexText 10 0 = cutEndAmended cexText 10 0 :=
  chunk_cut_priority_amended cexText 10 0

end Backend
